import Mathlib

/-!
Shallow embedding of the Prisma nudge pipeline
(`src/extension/claude-nudge-system.js` and the `TandemProcessor` of
`src/extension/memory-client.js`).  Strings are modelled as `List Char`;
JavaScript regular-expression tests used by the source are translated into
executable scanners over `List Char`.  Times are milliseconds as `Int`
(JavaScript `Date.now()` arithmetic), scores are `Nat`.
-/

namespace Prisma

abbrev Str := List Char

/-- `String.toLowerCase` (simple per-character lowering, ASCII-faithful). -/
def lowerStr (s : Str) : Str := s.map Char.toLower

/-- `String.toUpperCase` (simple per-character uppering, ASCII-faithful). -/
def upperStr (s : Str) : Str := s.map Char.toUpper

/-- Characters removed by JavaScript `String.prototype.trim`. -/
def isTrimCh (c : Char) : Bool :=
  c == ' ' || c == '\t' || c == '\n' || c == '\r' ||
  c == '\x0b' || c == '\x0c' || c == ' '

/-- JavaScript `String.prototype.trim`. -/
def trimStr (s : Str) : Str :=
  ((s.dropWhile isTrimCh).reverse.dropWhile isTrimCh).reverse

/-- JavaScript `String.prototype.includes` (substring containment). -/
def containsSub (needle : Str) : Str → Bool
  | [] => needle.isEmpty
  | c :: t => needle.isPrefixOf (c :: t) || containsSub needle t

/-- `c` is an ASCII decimal digit (regex `\d`). -/
def isDigitCh (c : Char) : Bool := '0' ≤ c && c ≤ '9'

/-- `c` is a JavaScript regex word character (`\w`, i.e. `[A-Za-z0-9_]`). -/
def isWordCh (c : Char) : Bool :=
  isDigitCh c || ('a' ≤ c && c ≤ 'z') || ('A' ≤ c && c ≤ 'Z') || c == '_'

/-- Numeric value of a digit string (`parseInt` on a `\d+` capture). -/
def digitsToNat (ds : Str) : Nat :=
  ds.foldl (fun a c => a * 10 + (c.toNat - 48)) 0

/-- Drop an expected literal prefix, returning the rest on success. -/
def dropPre : Str → Str → Option Str
  | [], s => some s
  | _ :: _, [] => none
  | p :: ps, c :: cs => if p == c then dropPre ps cs else none

/-- Try to match `pre` ++ digits ++ `s"` at the head of `s`, returning the
parsed digits.  This is the shape of the source regexes
`/<delay time="(\d+)s"/` and `/duration="(\d+)s"/`. -/
def matchNumTag (pre : Str) (s : Str) : Option Nat :=
  match dropPre pre s with
  | none => none
  | some rest =>
    let ds := rest.takeWhile isDigitCh
    if ds.isEmpty then none
    else match rest.drop ds.length with
      | 's' :: '"' :: _ => some (digitsToNat ds)
      | _ => none

/-- All matches of `pre` ++ digits ++ `s"` anywhere in the text
(the `g`-flagged scan of `structuredText.match(/<delay time="(\d+)s"/g)`;
such matches can never overlap, so the per-position scan finds the same set). -/
def numTagValues (pre : Str) : Str → List Nat
  | [] => []
  | c :: t =>
    match matchNumTag pre (c :: t) with
    | some n => n :: numTagValues pre t
    | none => numTagValues pre t

/-- Leftmost match of `pre` ++ digits ++ `s"` (un-flagged `String.match`). -/
def firstNumTag (pre : Str) : Str → Option Nat
  | [] => none
  | c :: t =>
    match matchNumTag pre (c :: t) with
    | some n => some n
    | none => firstNumTag pre t

/-- Word boundary against the previous character (`\b` before a word char). -/
def prevBoundary : Option Char → Bool
  | none => true
  | some p => !isWordCh p

/-- Does `\d+\/\d+\b` match at the head of `s`? -/
def fracAt (s : Str) : Bool :=
  let d1 := s.takeWhile isDigitCh
  if d1.isEmpty then false
  else match s.drop d1.length with
    | '/' :: r2 =>
      let d2 := r2.takeWhile isDigitCh
      if d2.isEmpty then false
      else match r2.drop d2.length with
        | [] => true
        | c :: _ => !isWordCh c
    | _ => false

def hasFractionAux : Option Char → Str → Bool
  | _, [] => false
  | prev, c :: t => (prevBoundary prev && fracAt (c :: t)) || hasFractionAux (some c) t

/-- JavaScript `/\b\d+\/\d+\b/` tested anywhere in `s`. -/
def hasFraction (s : Str) : Bool := hasFractionAux none s

/-- Does `lit` (a literal starting and ending in word characters) followed by
a word boundary match at the head of `s`? -/
def bLitAt (lit s : Str) : Bool :=
  match dropPre lit s with
  | none => false
  | some [] => true
  | some (c :: _) => !isWordCh c

def hasBLitAux (lit : Str) : Option Char → Str → Bool
  | _, [] => false
  | prev, c :: t => (prevBoundary prev && bLitAt lit (c :: t)) || hasBLitAux lit (some c) t

/-- JavaScript `/\b lit \b/` tested anywhere in `s`. -/
def hasBLit (lit : Str) (s : Str) : Bool := hasBLitAux lit none s

/-- JavaScript `/lit\b/` (literal with only a trailing word boundary). -/
def hasLitEndB (lit : Str) : Str → Bool
  | [] => false
  | c :: t => bLitAt lit (c :: t) || hasLitEndB lit t

/-- Line terminators that JavaScript `.` does not match. -/
def isLineTerm (c : Char) : Bool :=
  c == '\n' || c == '\r' || c == ' ' || c == ' '

/-- Split on line terminators (for `.`-containing regexes, which cannot match
across lines). -/
def splitLines : Str → List Str
  | [] => [[]]
  | c :: t =>
    if isLineTerm c then [] :: splitLines t
    else
      match splitLines t with
      | [] => [[c]]
      | l :: ls => (c :: l) :: ls

/-- `a.*b` within a single line: an occurrence of `a` followed by one of `b`. -/
def seqAfter2 (a b : Str) : Str → Bool
  | [] => a.isEmpty && b.isEmpty
  | c :: t =>
    (a.isPrefixOf (c :: t) && containsSub b ((c :: t).drop a.length)) || seqAfter2 a b t

/-- `a.*b.*c` within a single line. -/
def seqAfter3 (a b c : Str) : Str → Bool
  | [] => a.isEmpty && b.isEmpty && c.isEmpty
  | ch :: t =>
    (a.isPrefixOf (ch :: t) && seqAfter2 b c ((ch :: t).drop a.length)) ||
      seqAfter3 a b c t

/-- JavaScript `/a.*b/` tested against a (possibly multi-line) text. -/
def lineMatch2 (a b : Str) (s : Str) : Bool := (splitLines s).any (seqAfter2 a b)

/-- JavaScript `/a.*b.*c/` tested against a (possibly multi-line) text. -/
def lineMatch3 (a b c : Str) (s : Str) : Bool := (splitLines s).any (seqAfter3 a b c)

/-! ## SignalAnalyzer (`PrismaNudgeSystem.analyzeStructuredText` and
`detectMathematicalContent`, `src/extension/claude-nudge-system.js`) -/

/-- Result of `detectMathematicalContent`. -/
structure MathDetect where
  hasMathContent : Bool
  hasIncorrectAnswer : Bool
  mathType : Option Str
deriving Repr, DecidableEq

/-- Keyword list of `detectMathematicalContent`. -/
def nsMathKeywords : List Str :=
  ["probability", "calculate", "dice", "roll", "fraction", "answer is",
   "equation", "formula", "solve", "result", "solution", "theorem",
   "proof", "derivative", "integral", "matrix", "vector", "function"].map String.data

/-- Character class `[=+\-*/()^√∫∑∏]` of the `mathExpressions` regex. -/
def isMathSymbolCh (c : Char) : Bool :=
  c == '=' || c == '+' || c == '-' || c == '*' || c == '/' || c == '(' ||
  c == ')' || c == '^' || c == '√' || c == '∫' || c == '∑' || c == '∏'

/-- `suspiciousFractions` for dice problems. -/
def suspiciousFractions : List Str := ["1/89", "1/90", "1/88", "2/89"].map String.data

/-- `PrismaNudgeSystem.detectMathematicalContent`. -/
def detectMathematicalContent (s : Str) : MathDetect :=
  let lower := lowerStr s
  let hasMathKeywords := nsMathKeywords.any (fun k => containsSub k lower)
  let hasFractions := hasFraction s
  let hasMathSymbols := s.any isMathSymbolCh
  if hasMathKeywords || hasFractions || hasMathSymbols then
    let diceRoll := containsSub "dice".data lower || containsSub "roll".data lower
    let hasIncorrectDice :=
      diceRoll && suspiciousFractions.any (fun f => containsSub f s)
    let errorPat :=
      hasLitEndB "answer is 0".data lower || hasLitEndB "answer is 1".data lower ||
      hasBLit "1/89".data s || containsSub "divide by 0".data lower ||
      containsSub "infinity".data lower
    { hasMathContent := true
      hasIncorrectAnswer := hasIncorrectDice || errorPat
      mathType := if diceRoll then some "probability".data else none }
  else
    { hasMathContent := false, hasIncorrectAnswer := false, mathType := none }

/-- The `patterns` record of an analysis. -/
structure Patterns where
  hasErrors : Bool
  hasConfusion : Bool
  hasRepetition : Bool
  hasLongDelays : Bool
  hasContextSwitching : Bool
  hasFrequentErrors : Bool
  hasProlongedFocus : Bool
  hasMathematicalContent : Bool
  hasPotentialIncorrectAnswer : Bool
  hasCompletionSignals : Bool
  hasSuccessIndicators : Bool
deriving Repr, DecidableEq

/-- Result of `analyzeStructuredText`. -/
structure Analysis where
  concerningSignals : Nat
  signalTypes : List Str
  urgency : Str
  patterns : Patterns
deriving Repr, DecidableEq

/-- `completionKeywords` of `analyzeStructuredText`. -/
def completionKeywords : List Str :=
  ["done", "finished", "complete", "solved", "got it", "understand now",
   "that works", "perfect", "success", "correct", "right answer", "final answer",
   "solution is", "answer is", "result is", "equals", "="].map String.data

/-- `mathCompletionPatterns` of `analyzeStructuredText`, tested against the
lowercased text. -/
def mathCompletionHit (lower : Str) : Bool :=
  hasBLit "15/36".data lower || hasBLit "5/12".data lower ||
  lineMatch2 "answer".data "15".data lower ||
  lineMatch2 "answer".data "36".data lower ||
  lineMatch3 "15".data "out".data "36".data lower ||
  lineMatch2 "probability".data "15".data lower ||
  lineMatch2 "probability".data "5/12".data lower

/-- `PrismaNudgeSystem.analyzeStructuredText`.  Each guard is translated from
the corresponding `includes`/regex test on the structured batch text; the
score and the `signalTypes` list accumulate in source order. -/
def analyzeStructuredText (s : Str) : Analysis :=
  let lower := lowerStr s
  let errB := containsSub "<error_signal>".data s
  let confB := containsSub "<confusion_signal>".data s
  let repB := containsSub "<repetitive>".data s
  let delayB := (numTagValues "<delay time=\"".data s).any (fun n => 30 < n)
  let ctxB := containsSub "type=\"context_switching\"".data s
  let freqB := containsSub "type=\"frequent_errors\"".data s
  let prolB := containsSub "type=\"prolonged_focus\"".data s &&
    (match firstNumTag "duration=\"".data s with
     | some n => 300 < n
     | none => false)
  let md := detectMathematicalContent s
  let mathIncB := md.hasMathContent && md.hasIncorrectAnswer
  let incSigB := containsSub "<incorrect_answer_signal>".data s
  let completionB := completionKeywords.any (fun k => containsSub k lower)
  let successB := md.hasMathContent && mathCompletionHit lower
  let score :=
    (if errB then 1 else 0) + (if confB then 2 else 0) + (if repB then 1 else 0) +
    (if delayB then 1 else 0) + (if ctxB then 1 else 0) + (if freqB then 2 else 0) +
    (if prolB then 1 else 0) + (if mathIncB then 2 else 0) + (if incSigB then 3 else 0)
  let types :=
    (if errB then ["errors".data] else []) ++
    (if confB then ["confusion".data] else []) ++
    (if repB then ["repetition".data] else []) ++
    (if delayB then ["long_delays".data] else []) ++
    (if ctxB then ["context_switching".data] else []) ++
    (if freqB then ["frequent_errors".data] else []) ++
    (if prolB then ["prolonged_focus".data] else []) ++
    (if mathIncB then ["incorrect_math".data] else []) ++
    (if incSigB then ["incorrect_answer".data] else []) ++
    (if completionB then ["completion".data] else []) ++
    (if successB then ["correct_answer".data] else [])
  { concerningSignals := score
    signalTypes := types
    urgency := if 6 ≤ score then "high".data
               else if 3 ≤ score then "medium".data
               else "low".data
    patterns :=
      { hasErrors := errB
        hasConfusion := confB
        hasRepetition := repB
        hasLongDelays := delayB
        hasContextSwitching := ctxB
        hasFrequentErrors := freqB
        hasProlongedFocus := prolB
        hasMathematicalContent := md.hasMathContent
        hasPotentialIncorrectAnswer := mathIncB || incSigB
        hasCompletionSignals := completionB
        hasSuccessIndicators := successB } }

/-! ## EscalationEngine and NudgeDispatcher state
(`PrismaNudgeSystem`, `src/extension/claude-nudge-system.js`) -/

/-- Decimal rendering of a nonnegative number (template `${now}`). -/
def natToStr (n : Nat) : Str := Nat.toDigits 10 n

/-- A sealed batch record as consumed by the nudge system. -/
structure Batch where
  batchId : Str
  timestamp : Int
  structuredText : Str
  rawEntryCount : Nat
  timespan : Int
deriving Repr, DecidableEq

/-- An emitted nudge. -/
structure Nudge where
  id : Str
  timestamp : Int
  level : Int
  text : Str
  analysis : Analysis
  batchId : Str
  manualTrigger : Bool
  forced : Bool
deriving Repr, DecidableEq

/-- Mutable state of a `PrismaNudgeSystem` instance. -/
structure NudgeState where
  nudgeHistory : List Nudge
  interferenceLevel : Int
  lastNudgeTime : Int
deriving Repr, DecidableEq

/-- The constructor's initial state. -/
def initialNudgeState : NudgeState :=
  { nudgeHistory := [], interferenceLevel := 0, lastNudgeTime := 0 }

/-- `this.nudgeCooldowns` (the per-level table; absent keys are `undefined`). -/
def nudgeCooldowns (level : Int) : Option Int :=
  if level = 0 then some 10000
  else if level = 1 then some 15000
  else if level = 2 then some 20000
  else if level = 3 then some 30000
  else none

/-- `PrismaNudgeSystem.updateInterferenceLevel`.  `now` is `Date.now()`. -/
def updateInterferenceLevel (now : Int) (a : Analysis) (st : NudgeState) : NudgeState :=
  if a.patterns.hasSuccessIndicators && a.concerningSignals == 0 then
    { st with interferenceLevel := max 0 (st.interferenceLevel - 1) }
  else
    let l1 :=
      if 6 ≤ a.concerningSignals then max st.interferenceLevel 3
      else if 4 ≤ a.concerningSignals then max st.interferenceLevel 2
      else if 2 ≤ a.concerningSignals then max st.interferenceLevel 1
      else st.interferenceLevel
    let l2 :=
      if 300000 < now - st.lastNudgeTime && a.concerningSignals < 2 then max 0 (l1 - 1)
      else l1
    { st with interferenceLevel := l2 }

/-- The cooldown value computed inside `shouldNudge` (local `cooldown`). -/
def effectiveCooldown (st : NudgeState) (a : Analysis) : Int :=
  let hasSuccess := a.patterns.hasSuccessIndicators
  let hasProblems := 0 < a.concerningSignals
  let c :=
    if hasSuccess && !hasProblems then 5000
    else (nudgeCooldowns st.interferenceLevel).getD 30000
  if a.patterns.hasMathematicalContent && hasProblems then min c 8000 else c

/-- `PrismaNudgeSystem.shouldNudge`. -/
def shouldNudge (now : Int) (st : NudgeState) (a : Analysis) : Bool :=
  let hasSuccess := a.patterns.hasSuccessIndicators
  let hasProblems := 0 < a.concerningSignals
  (hasProblems || hasSuccess) && decide (effectiveCooldown st a < now - st.lastNudgeTime)

/-- `genericPhrases` filtered by `callPrisma`. -/
def genericPhrases : List Str :=
  ["It's great that you're practicing",
   "Keep up the consistent effort",
   "don't hesitate to reach out",
   "That's a key part of the learning process",
   "You're doing well",
   "Great job",
   "Keep going",
   "You've got this"].map String.data

/-- Post-processing of the model reply inside `callPrisma`: trim, the SILENT
sentinel (`none` = silent, no nudge), and the generic-phrase filter with its
level-indexed fallbacks.  The raw reply is `result.content[0].text`. -/
def callPrismaPost (level : Int) (raw : Str) : Option Str :=
  let responseText := trimStr raw
  if upperStr responseText == "SILENT".data then none
  else
    let isGeneric :=
      genericPhrases.any (fun p => containsSub (lowerStr p) (lowerStr responseText))
    if isGeneric then
      if 3 ≤ level then
        some "Check the error message carefully - it usually tells you exactly what's wrong.".data
      else if 2 ≤ level then
        some "Try breaking the problem into smaller steps.".data
      else
        some "Take a step back and review what you're trying to accomplish.".data
    else some responseText

/-- `PrismaNudgeSystem.callPrisma`: the network call either fails (`error`,
the function throws) or yields a raw reply text, which is post-processed. -/
def callPrisma (level : Int) (api : Except Unit Str) : Except Unit (Option Str) :=
  api.map (callPrismaPost level)

/-- JavaScript `array.slice(-n)`. -/
def takeLast (n : Nat) (l : List α) : List α := l.drop (l.length - n)

/-- `push` followed by the `length > 20` cap of the nudge history. -/
def pushCapped (n : Nudge) (h : List Nudge) : List Nudge :=
  let h' := h ++ [n]
  if 20 < h'.length then takeLast 20 h' else h'

/-- Generic fallback used by `generateNudge` on an empty reply with
concerning signals. -/
def emptyReplyFallback : Str :=
  "Take a closer look at your reasoning and try to identify any assumptions you may have missed.".data

/-- `PrismaNudgeSystem.generateNudge`.  `api` stands for the outcome of the
external model call; on an exception the `catch` yields no nudge and leaves
the state untouched. -/
def generateNudge (now : Int) (batch : Batch) (a : Analysis)
    (api : Except Unit Str) (st : NudgeState) : NudgeState × Option Nudge :=
  match callPrisma st.interferenceLevel api with
  | .error _ => (st, none)
  | .ok nudgeText =>
    let cleaned := trimStr (nudgeText.getD [])
    let finalText? : Option Str :=
      if cleaned.isEmpty then
        if 0 < a.concerningSignals then some emptyReplyFallback else none
      else some cleaned
    match finalText? with
    | none => (st, none)
    | some txt =>
      let nudge : Nudge :=
        { id := "nudge_".data ++ natToStr now.toNat
          timestamp := now
          level := st.interferenceLevel
          text := txt
          analysis := a
          batchId := batch.batchId
          manualTrigger := false
          forced := false }
      ({ st with nudgeHistory := pushCapped nudge st.nudgeHistory
                 lastNudgeTime := now }, some nudge)

/-- `PrismaNudgeSystem.analyzeAndNudge` (the automatic pipeline, after the
batch/apiKey presence guard). -/
def analyzeAndNudge (now : Int) (batch : Batch) (api : Except Unit Str)
    (st : NudgeState) : NudgeState × Option Nudge :=
  let a := analyzeStructuredText batch.structuredText
  let st1 := updateInterferenceLevel now a st
  if shouldNudge now st1 a then generateNudge now batch a api st1
  else (st1, none)

/-- `PrismaNudgeSystem.generateForcedNudge`: a silent or empty reply is
replaced by the fixed encouraging fallback, so an `ok` call always emits. -/
def generateForcedNudge (now : Int) (batch : Batch) (a : Analysis)
    (api : Except Unit Str) (st : NudgeState) : NudgeState × Option Nudge :=
  match callPrisma st.interferenceLevel api with
  | .error _ => (st, none)
  | .ok nudgeText =>
    let finalText :=
      match nudgeText with
      | none => "Keep doing what you're doing - you're on the right track!".data
      | some t =>
        if t.isEmpty then "Keep doing what you're doing - you're on the right track!".data
        else t
    let nudge : Nudge :=
      { id := "forced_nudge_".data ++ natToStr now.toNat
        timestamp := now
        level := st.interferenceLevel
        text := finalText
        analysis := a
        batchId := batch.batchId
        manualTrigger := false
        forced := true }
    ({ st with nudgeHistory := pushCapped nudge st.nudgeHistory
               lastNudgeTime := now }, some nudge)

/-- Replace the last element (the `nudge.manualTrigger = true` mutation is
visible through the history, which holds the same object). -/
def setLast (l : List α) (x : α) : List α := l.dropLast ++ [x]

/-- `PrismaNudgeSystem.forceAnalyzeAndNudge` (manual triggers): cooldown is
bypassed by zeroing `lastNudgeTime`, a level of 0 is forced to 1, the forced
nudge is generated, and `lastNudgeTime` is restored afterwards. -/
def forceAnalyzeAndNudge (now : Int) (batch : Batch) (api : Except Unit Str)
    (st : NudgeState) : NudgeState × Option Nudge :=
  let a := analyzeStructuredText batch.structuredText
  let originalLastNudgeTime := st.lastNudgeTime
  let st1 := { st with lastNudgeTime := 0 }
  let st2 :=
    if st1.interferenceLevel = 0 then { st1 with interferenceLevel := 1 } else st1
  let r := generateForcedNudge now batch a api st2
  let st4 := { r.1 with lastNudgeTime := originalLastNudgeTime }
  match r.2 with
  | none => (st4, none)
  | some n =>
    let n' := { n with manualTrigger := true }
    ({ st4 with nudgeHistory := setLast st4.nudgeHistory n' }, some n')

/-- One operation of the nudge system: an automatic analysis update
(`analyzeAndNudge`) or a manual/forced trigger (`forceAnalyzeAndNudge`). -/
inductive NOp where
  | auto (now : Int) (batch : Batch) (api : Except Unit Str)
  | manual (now : Int) (batch : Batch) (api : Except Unit Str)
deriving Repr

/-- Step of one operation. -/
def stepOp (st : NudgeState) : NOp → NudgeState × Option Nudge
  | .auto now batch api => analyzeAndNudge now batch api st
  | .manual now batch api => forceAnalyzeAndNudge now batch api st

/-- Run a sequence of operations from a state. -/
def runOps (st : NudgeState) : List NOp → NudgeState
  | [] => st
  | op :: ops => runOps (stepOp st op).1 ops

/-! ## TandemProcessor (`src/extension/memory-client.js`) -/

/-- Decimal rendering of an integer (template `${...}` on a number). -/
def intToStr (i : Int) : Str := if i < 0 then '-' :: natToStr i.natAbs else natToStr i.toNat

/-- JavaScript `\s` (whitespace class), restricted to the characters that can
occur in this pipeline's texts. -/
def isJsWs (c : Char) : Bool := isTrimCh c || isLineTerm c

/-- A capture entry as delivered by the content script: `timestamp` is the
2-digit display counter, `capturedAt` the parsed capture time in ms. -/
structure CaptureEntry where
  timestamp : Str
  diff : Str
  fullText : Str
  url : Str
  capturedAt : Int
deriving Repr, DecidableEq

/-- A buffered entry (`{...captureEntry, receivedAt: now}`). -/
structure REntry extends CaptureEntry where
  receivedAt : Int
deriving Repr, DecidableEq

/-- Mutable state of a `TandemProcessor` instance. -/
structure TandemState where
  rawCaptureData : List REntry
  structuredBatches : List Batch
  lastProcessTime : Int
  lastActivityTime : Int
  isProcessing : Bool
deriving Repr, DecidableEq

/-- The constructor's initial state. -/
def initialTandemState : TandemState :=
  { rawCaptureData := [], structuredBatches := [], lastProcessTime := 0,
    lastActivityTime := 0, isProcessing := false }

/-- `TandemProcessor.addCaptureData`: append with receipt time, update
`lastActivityTime`, evict entries older than two minutes. -/
def addCaptureData (now : Int) (e : CaptureEntry) (st : TandemState) : TandemState :=
  let raw1 := st.rawCaptureData ++ [{ toCaptureEntry := e, receivedAt := now }]
  let twoMinutesAgo := now - 2 * 60 * 1000
  { st with rawCaptureData := raw1.filter (fun r => twoMinutesAgo < r.receivedAt)
            lastActivityTime := now }

/-- `completionIndicators` of `detectNaturalBreak`. -/
def completionIndicatorsMC : List Str :=
  ["done", "finished", "complete", "solved", "got it", "understand now",
   "that works", "perfect", "success", "correct"].map String.data

/-- `urgentKeywords` of `hasUrgentSignals`. -/
def urgentKeywordsMC : List Str :=
  ["error", "stuck", "help", "confused", "problem", "issue",
   "broken", "not working", "failed", "wrong"].map String.data

/-- `TandemProcessor.containsErrorKeywords` (falsy text gives `false`). -/
def containsErrorKeywordsMC (text : Str) : Bool :=
  !text.isEmpty &&
    (["error", "problem", "issue", "stuck", "failed", "wrong", "broken"].map String.data).any
      (fun k => containsSub k (lowerStr text))

/-- `TandemProcessor.containsConfusionKeywords`. -/
def containsConfusionKeywordsMC (text : Str) : Bool :=
  !text.isEmpty &&
    (["confused", "dont understand", "don't get", "lost", "help", "unclear"].map String.data).any
      (fun k => containsSub k (lowerStr text))

/-- `TandemProcessor.isSearchActivity`. -/
def isSearchActivityMC (text : Str) : Bool :=
  !text.isEmpty &&
    (["search", "find", "looking for", "query", "google", "stack overflow"].map String.data).any
      (fun k => containsSub k (lowerStr text))

/-- `TandemProcessor.isMathematicalContent` (the composer's shorter keyword
list). -/
def isMathematicalContentMC (text : Str) : Bool :=
  !text.isEmpty &&
    ((["probability", "calculate", "dice", "roll", "fraction", "answer is",
       "equation", "formula", "solve", "result", "solution", "theorem"].map String.data).any
        (fun k => containsSub k (lowerStr text)) ||
     hasFraction text || text.any isMathSymbolCh)

/-- `TandemProcessor.hasIncorrectMathAnswer`. -/
def hasIncorrectMathAnswerMC (text : Str) : Bool :=
  !text.isEmpty &&
    (suspiciousFractions.any (fun f => containsSub f text) ||
     hasLitEndB "answer is 0".data (lowerStr text) ||
     hasLitEndB "answer is 1".data (lowerStr text) ||
     hasBLit "1/89".data text ||
     containsSub "divide by 0".data (lowerStr text))

/-- JavaScript `split(/\s+/)` (a leading or trailing whitespace run produces
an empty element, interior runs separate).  `inRun` records whether the
previous character belonged to a whitespace run. -/
def splitWsAux (inRun : Bool) (cur : Str) : Str → List Str
  | [] => [cur.reverse]
  | c :: t =>
    if isJsWs c then
      if inRun then splitWsAux true [] t
      else cur.reverse :: splitWsAux true [] t
    else splitWsAux false (c :: cur) t

def splitWs (s : Str) : List Str := splitWsAux false [] s

/-- Highest occurrence count among words longer than 3 characters. -/
def maxRepCount (ws : List Str) : Nat :=
  (ws.map (fun w => if 3 < w.length then ws.count w else 0)).foldr max 0

/-- `TandemProcessor.isRepetitiveContent`: some word longer than 3 characters
makes up more than 30% of all words. -/
def isRepetitiveContent (text : Str) : Bool :=
  if text.length < 20 then false
  else
    let words := splitWs (lowerStr text)
    decide (words.length * 3 < maxRepCount words * 10)

/-- Leftmost-match semantics of `/\[DELETED:\s*([^\]]+)\]/` at the head of
`s`: skip `\s*` but give back whitespace if the capture would be empty. -/
def matchDeleted (s : Str) : Option (Str × Str) :=
  match dropPre "[DELETED:".data s with
  | none => none
  | some r =>
    let ws := r.takeWhile isJsWs
    let body := r.drop ws.length
    let cap0 := body.takeWhile (fun c => c != ']')
    match body.drop cap0.length with
    | ']' :: rest =>
      if cap0.isEmpty then
        -- backtrack one whitespace character into the capture if possible
        match ws.getLast? with
        | some w => some ([w], rest)
        | none => none
      else some (cap0, rest)
    | _ => none

/-- Global replace of `/\[DELETED:\s*([^\]]+)\]/g` with
`<deleted>$1</deleted>`.  A successful match always consumes at least one
character, so fuel equal to the length of the scanned text never runs out. -/
def replaceDeletedAux : Nat → Str → Str
  | 0, s => s
  | _ + 1, [] => []
  | fuel + 1, c :: t =>
    match matchDeleted (c :: t) with
    | some (cap, rest) =>
      "<deleted>".data ++ cap ++ "</deleted>".data ++ replaceDeletedAux fuel rest
    | none => c :: replaceDeletedAux fuel t

def replaceDeleted (s : Str) : Str := replaceDeletedAux s.length s

def expectChar (c : Char) : Str → Option Str
  | [] => none
  | x :: t => if x == c then some t else none

/-- Leftmost-match semantics of
`/\[CHANGED:\s*"([^"]+)"\s*→\s*"([^"]+)"\]/` at the head of `s`. -/
def matchChanged (s : Str) : Option (Str × Str × Str) :=
  match dropPre "[CHANGED:".data s with
  | none => none
  | some r =>
    let r := r.dropWhile isJsWs
    match expectChar '"' r with
    | none => none
    | some r =>
      let cap1 := r.takeWhile (fun c => c != '"')
      if cap1.isEmpty then none
      else
        match expectChar '"' (r.drop cap1.length) with
        | none => none
        | some r =>
          let r := r.dropWhile isJsWs
          match dropPre "→".data r with
          | none => none
          | some r =>
            let r := r.dropWhile isJsWs
            match expectChar '"' r with
            | none => none
            | some r =>
              let cap2 := r.takeWhile (fun c => c != '"')
              if cap2.isEmpty then none
              else
                match expectChar '"' (r.drop cap2.length) with
                | none => none
                | some r =>
                  match expectChar ']' r with
                  | none => none
                  | some rest => some (cap1, cap2, rest)

/-- Global replace of the change marker with `<changed from="$1" to="$2" />`.
Fuel as in `replaceDeletedAux`. -/
def replaceChangedAux : Nat → Str → Str
  | 0, s => s
  | _ + 1, [] => []
  | fuel + 1, c :: t =>
    match matchChanged (c :: t) with
    | some (cap1, cap2, rest) =>
      "<changed from=\"".data ++ cap1 ++ "\" to=\"".data ++ cap2 ++ "\" />".data ++
        replaceChangedAux fuel rest
    | none => c :: replaceChangedAux fuel t

def replaceChanged (s : Str) : Str := replaceChangedAux s.length s

/-- `TandemProcessor.processDiff`: marker normalisation followed by the fixed
cascade of content tags, each wrapping the already-tagged string. -/
def processDiff (diff _fullText : Str) : Str :=
  if diff.isEmpty then []
  else
    let p := replaceChanged (replaceDeleted diff)
    let p := if isRepetitiveContent p then
      "<repetitive>".data ++ p ++ "</repetitive>".data else p
    let p := if containsErrorKeywordsMC p then
      "<error_signal>".data ++ p ++ "</error_signal>".data else p
    let p := if containsConfusionKeywordsMC p then
      "<confusion_signal>".data ++ p ++ "</confusion_signal>".data else p
    let p := if isSearchActivityMC p then
      "<search_activity>".data ++ p ++ "</search_activity>".data else p
    let p := if isMathematicalContentMC p then
      "<mathematical_content>".data ++ p ++ "</mathematical_content>".data else p
    let p := if hasIncorrectMathAnswerMC p then
      "<incorrect_answer_signal>".data ++ p ++ "</incorrect_answer_signal>".data else p
    p

/-- `TandemProcessor.calculateTimespan`. -/
def calculateTimespan (l : List REntry) : Int :=
  if l.length < 2 then 0
  else
    let ts := l.map (fun e => e.capturedAt)
    ts.foldl max (ts.headD 0) - ts.foldl min (ts.headD 0)

/-- Stable insertion by `capturedAt` (JavaScript `sort` is stable). -/
def insertByCaptured (e : REntry) : List REntry → List REntry
  | [] => [e]
  | x :: t =>
    if e.capturedAt ≤ x.capturedAt then e :: x :: t else x :: insertByCaptured e t

def sortByCaptured : List REntry → List REntry
  | [] => []
  | e :: t => insertByCaptured e (sortByCaptured t)

/-- `TandemProcessor.analyzeBehaviorPatterns`. -/
def analyzeBehaviorPatterns (batchData : List REntry) : Str :=
  let urls := ((batchData.map (fun e => e.url)).filter (fun u => !u.isEmpty)).dedup
  let t1 := if 3 < urls.length then
    "<behavior type=\"context_switching\" count=\"".data ++ natToStr urls.length ++
      "\" />\n".data else []
  let rapid := batchData.filter (fun e => !e.diff.isEmpty && e.diff.length < 50)
  let t2 := if 5 < rapid.length then
    "<behavior type=\"rapid_changes\" count=\"".data ++ natToStr rapid.length ++
      "\" />\n".data else []
  let timespan := calculateTimespan batchData
  let t3 := if 60000 < timespan then
    "<behavior type=\"prolonged_focus\" duration=\"".data ++
      intToStr ((timespan + 500) / 1000) ++ "s\" />\n".data else []
  let errorCount := (batchData.filter (fun e => containsErrorKeywordsMC e.diff)).length
  let t4 := if 2 < errorCount then
    "<behavior type=\"frequent_errors\" count=\"".data ++ natToStr errorCount ++
      "\" />\n".data else []
  t1 ++ t2 ++ t3 ++ t4

/-- Body of the structured text: delay markers (`Math.round(delay/1000)`) and
tagged change blocks, in chronological order. -/
def batchBody : Option Int → List REntry → Str
  | _, [] => []
  | lastTs, e :: rest =>
    let currentTime := e.capturedAt
    let delayPart :=
      match lastTs with
      | some lt =>
        let d := currentTime - lt
        if 5000 < d then
          "<delay time=\"".data ++ intToStr ((d + 500) / 1000) ++ "s\" />\n".data
        else []
      | none => []
    let processed := processDiff e.diff e.fullText
    let changePart :=
      if (trimStr processed).isEmpty then []
      else
        "<change timestamp=\"".data ++ e.timestamp ++ "\">\n".data ++ processed ++
          "\n</change>\n".data
    delayPart ++ changePart ++ batchBody (some currentTime) rest

/-- `TandemProcessor.createStructuredBatch`.  `sanitize` stands for
`sanitizeUrl`, whose `new URL` parsing is a browser collaborator; `now` is
`Date.now()` at seal time. -/
def createStructuredBatch (sanitize : Str → Str) (now : Int)
    (batchData : List REntry) : Str :=
  let header := "<batch timestamp=\"".data ++ intToStr now ++ "\" entries=\"".data ++
    natToStr batchData.length ++ "\">\n".data
  let sorted := sortByCaptured batchData
  let body := batchBody none sorted
  let ctx :=
    match sorted.getLast? with
    | some le => if le.url.isEmpty then [] else
        "<context url=\"".data ++ sanitize le.url ++ "\" />\n".data
    | none => []
  header ++ body ++ ctx ++ analyzeBehaviorPatterns sorted ++ "</batch>".data

/-- `slice(-10)` cap of the structured batch history. -/
def pushCappedBatch (b : Batch) (h : List Batch) : List Batch :=
  let h' := h ++ [b]
  if 10 < h'.length then takeLast 10 h' else h'

/-- `TandemProcessor.processBatch`: seal the entries received since the last
seal.  Returns the new state, and on success the created batch record
together with the consumed entry list. -/
def processBatch (sanitize : Str → Str) (now : Int) (st : TandemState) :
    TandemState × Option (Batch × List REntry) :=
  let batchData := st.rawCaptureData.filter (fun e => st.lastProcessTime < e.receivedAt)
  if batchData.isEmpty then ({ st with isProcessing := false }, none)
  else
    let structured := createStructuredBatch sanitize now batchData
    let b : Batch :=
      { batchId := "batch_".data ++ intToStr now
        timestamp := now
        structuredText := structured
        rawEntryCount := batchData.length
        timespan := calculateTimespan batchData }
    ({ st with structuredBatches := pushCappedBatch b st.structuredBatches
               lastProcessTime := now
               isProcessing := false },
     some (b, batchData))

/-- `TandemProcessor.detectNaturalBreak`. -/
def detectNaturalBreak (st : TandemState) : Bool :=
  if st.rawCaptureData.length < 3 then false
  else
    let recentEntries := takeLast 5 st.rawCaptureData
    let lastCheck :=
      match recentEntries.getLast? with
      | some le =>
        !le.diff.isEmpty &&
          completionIndicatorsMC.any (fun k => containsSub k (lowerStr le.diff))
      | none => false
    if lastCheck then true
    else
      let urls := ((recentEntries.map (fun e => e.url)).filter (fun u => !u.isEmpty)).dedup
      1 < urls.length

/-- `TandemProcessor.hasUrgentSignals`. -/
def hasUrgentSignals (st : TandemState) : Bool :=
  let recent := takeLast 3 st.rawCaptureData
  let urgent := recent.filter (fun e =>
    !e.diff.isEmpty && urgentKeywordsMC.any (fun k => containsSub k (lowerStr e.diff)))
  2 ≤ urgent.length

/-- `TandemProcessor.shouldProcessBatch` (the truthiness of the returned
reason object). -/
def shouldProcessBatch (now : Int) (st : TandemState) : Bool :=
  let timeSinceLastProcess := now - st.lastProcessTime
  let timeSinceLastActivity := now - st.lastActivityTime
  if 45000 ≤ timeSinceLastActivity then true
  else if timeSinceLastProcess < 15000 then false
  else if 10000 ≤ timeSinceLastActivity then true
  else if detectNaturalBreak st then true
  else if hasUrgentSignals st then true
  else false

/-- One poll of the `setInterval` scheduler loop. -/
def tickStep (sanitize : Str → Str) (now : Int) (st : TandemState) :
    TandemState × Option (Batch × List REntry) :=
  if !st.isProcessing && !st.rawCaptureData.isEmpty && shouldProcessBatch now st then
    processBatch sanitize now st
  else (st, none)

/-- `TandemProcessor.forceProcessBatch`: zero `lastProcessTime`, seal, then
restore the original `lastProcessTime`. -/
def forceProcessBatch (sanitize : Str → Str) (now : Int) (st : TandemState) :
    TandemState × Option (Batch × List REntry) :=
  if st.rawCaptureData.isEmpty then (st, none)
  else
    let original := st.lastProcessTime
    let st1 := { st with lastProcessTime := 0 }
    let r := processBatch sanitize now st1
    ({ r.1 with lastProcessTime := original }, r.2)

/-- External events driving a `TandemProcessor`. -/
inductive TEvent where
  | add (now : Int) (e : CaptureEntry)
  | tick (now : Int)
  | force (now : Int)

/-- Step of one event (discarding the sealed-batch output). -/
def tandemStep (sanitize : Str → Str) (st : TandemState) : TEvent → TandemState
  | .add now e => addCaptureData now e st
  | .tick now => (tickStep sanitize now st).1
  | .force now => (forceProcessBatch sanitize now st).1

/-- Run a sequence of events from a state. -/
def runTandem (sanitize : Str → Str) (st : TandemState) : List TEvent → TandemState
  | [] => st
  | ev :: evs => runTandem sanitize (tandemStep sanitize st ev) evs

/-! ## Helper lemmas about the string scanners -/

theorem containsSub_iff {n s : Str} : containsSub n s = true ↔ n <:+: s := by
  induction s with
  | nil => simp [containsSub, List.isEmpty_iff]
  | cons c t ih =>
    simp [containsSub, ih, List.isPrefixOf_iff_prefix, List.infix_cons_iff]

theorem containsSub_of_infix {n m s : Str} (h1 : n <:+: m)
    (h2 : containsSub m s = true) : containsSub n s = true :=
  containsSub_iff.mpr (h1.trans (containsSub_iff.mp h2))

theorem containsSub_lower {n s : Str} (h : containsSub n s = true) :
    containsSub (lowerStr n) (lowerStr s) = true :=
  containsSub_iff.mpr ((containsSub_iff.mp h).map Char.toLower)

theorem containsSub_of_mem {c : Char} {s : Str} (h : c ∈ s) :
    containsSub [c] s = true := by
  obtain ⟨u, v, rfl⟩ := List.append_of_mem h
  exact containsSub_iff.mpr ⟨u, v, by simp⟩

theorem seqAfter2_iff {a b s : Str} :
    seqAfter2 a b s = true ↔ ∃ u w, s = u ++ (a ++ w) ∧ containsSub b w = true := by
  induction s with
  | nil =>
    simp only [seqAfter2, Bool.and_eq_true, List.isEmpty_iff]
    constructor
    · rintro ⟨rfl, rfl⟩
      exact ⟨[], [], rfl, rfl⟩
    · rintro ⟨u, w, h, hb⟩
      rcases List.append_eq_nil.mp h.symm with ⟨rfl, h2⟩
      rcases List.append_eq_nil.mp h2 with ⟨rfl, rfl⟩
      exact ⟨rfl, List.isEmpty_iff.mp hb⟩
  | cons c t ih =>
    simp only [seqAfter2, Bool.or_eq_true, Bool.and_eq_true, ih]
    constructor
    · rintro (⟨hpre, hb⟩ | ⟨u, w, rfl, hb⟩)
      · obtain ⟨w, hw⟩ := List.isPrefixOf_iff_prefix.mp hpre
        refine ⟨[], w, by simp [hw.symm], ?_⟩
        rwa [← hw, List.drop_left] at hb
      · exact ⟨c :: u, w, rfl, hb⟩
    · rintro ⟨u, w, heq, hb⟩
      cases u with
      | nil =>
        refine Or.inl ⟨List.isPrefixOf_iff_prefix.mpr ⟨w, by simpa using heq.symm⟩, ?_⟩
        have : c :: t = a ++ w := by simpa using heq
        rw [this, List.drop_left]
        exact hb
      | cons u₀ u' =>
        have h0 : c = u₀ ∧ t = u' ++ (a ++ w) := by
          simpa using heq
        exact Or.inr ⟨u', w, h0.2, hb⟩

theorem seqAfter2_of_infix {a b p q : Str} (h : seqAfter2 a b p = true)
    (hpq : p <:+: q) : seqAfter2 a b q = true := by
  obtain ⟨u, w, rfl, hb⟩ := seqAfter2_iff.mp h
  obtain ⟨x, y, rfl⟩ := hpq
  refine seqAfter2_iff.mpr ⟨x ++ u, w ++ y, by simp, ?_⟩
  exact containsSub_iff.mpr ((containsSub_iff.mp hb).trans ⟨[], y, by simp⟩)

theorem splitLines_ne_nil (s : Str) : splitLines s ≠ [] := by
  induction s with
  | nil => simp [splitLines]
  | cons c t ih =>
    simp only [splitLines]
    split
    · simp
    · split <;> simp

theorem prefix_splitLines_head {p : Str} (hterm : ∀ c ∈ p, isLineTerm c = false) :
    ∀ {t : Str}, p <+: t → ∃ l ls, splitLines t = l :: ls ∧ p <+: l := by
  induction p with
  | nil =>
    intro t _
    cases h : splitLines t with
    | nil => exact absurd h (splitLines_ne_nil t)
    | cons l ls => exact ⟨l, ls, rfl, List.nil_prefix⟩
  | cons c p' ih =>
    intro t hp
    obtain ⟨w, rfl⟩ := hp
    have hc : isLineTerm c = false := hterm c (by simp)
    have hterm' : ∀ x ∈ p', isLineTerm x = false := fun x hx => hterm x (by simp [hx])
    obtain ⟨l, ls, heq, hpre⟩ := ih hterm' (List.prefix_append p' w)
    refine ⟨c :: l, ls, ?_, ?_⟩
    · simp [splitLines, hc, heq]
    · obtain ⟨v, rfl⟩ := hpre
      exact ⟨v, rfl⟩

theorem infix_mem_splitLines {p : Str} (hterm : ∀ c ∈ p, isLineTerm c = false) :
    ∀ {s : Str}, p <:+: s → ∃ l ∈ splitLines s, p <:+: l := by
  intro s
  induction s with
  | nil =>
    intro hp
    have hnil : p = [] := List.eq_nil_of_infix_nil hp
    subst hnil
    exact ⟨[], by simp [splitLines], List.nil_infix⟩
  | cons c t ih =>
    intro hp
    rcases List.infix_cons_iff.mp hp with hpre | hinf
    · obtain ⟨l, ls, heq, hpl⟩ := prefix_splitLines_head hterm hpre
      exact ⟨l, by simp [heq], hpl.isInfix⟩
    · obtain ⟨l, hl, hinfl⟩ := ih hinf
      by_cases hc : isLineTerm c = true
      · exact ⟨l, by simp [splitLines, hc, hl], hinfl⟩
      · cases heq : splitLines t with
        | nil => exact absurd heq (splitLines_ne_nil t)
        | cons l₀ ls =>
          rw [heq] at hl
          rcases List.mem_cons.mp hl with rfl | hmem
          · refine ⟨c :: l, ?_, hinfl.trans (List.infix_cons List.infix_rfl)⟩
            simp [splitLines, hc, heq]
          · exact ⟨l, by simp [splitLines, hc, heq, hmem], hinfl⟩

theorem lineMatch2_of_infix {a b p s : Str} (hterm : ∀ c ∈ p, isLineTerm c = false)
    (hseq : seqAfter2 a b p = true) (hp : p <:+: s) : lineMatch2 a b s = true := by
  obtain ⟨l, hl, hinf⟩ := infix_mem_splitLines hterm hp
  exact List.any_eq_true.mpr ⟨l, hl, seqAfter2_of_infix hseq hinf⟩

theorem hasMathContent_of_keyword {s k : Str} (hk : k ∈ nsMathKeywords)
    (h : containsSub k (lowerStr s) = true) :
    (detectMathematicalContent s).hasMathContent = true := by
  have hany : nsMathKeywords.any (fun k => containsSub k (lowerStr s)) = true :=
    List.any_eq_true.mpr ⟨k, hk, h⟩
  simp [detectMathematicalContent, hany]

/-! ## Claims -/

/-- Claim C2: for every structured batch text containing the
`<incorrect_answer_signal>` tag and a `type="frequent_errors"` behavior
marker, and no other scoring pattern of the scoring table,
`analyzeStructuredText` scores 3 + 2 = 5 concerning signals with urgency
"medium", and the subsequent `updateInterferenceLevel` raises the
interference level to at least 2 (5 crosses the `toLevel2` threshold 4). -/
theorem c2_scenarioB (s : Str)
    (hinc : containsSub "<incorrect_answer_signal>".data s = true)
    (hfreq : containsSub "type=\"frequent_errors\"".data s = true)
    (herr : containsSub "<error_signal>".data s = false)
    (hconf : containsSub "<confusion_signal>".data s = false)
    (hrep : containsSub "<repetitive>".data s = false)
    (hdelay : (numTagValues "<delay time=\"".data s).any (fun n => 30 < n) = false)
    (hctx : containsSub "type=\"context_switching\"".data s = false)
    (hprol : containsSub "type=\"prolonged_focus\"".data s = false)
    (hmathinc : (detectMathematicalContent s).hasIncorrectAnswer = false) :
    (analyzeStructuredText s).concerningSignals = 5 ∧
    (analyzeStructuredText s).urgency = "medium".data ∧
    ∀ (st : NudgeState) (now : Int),
      2 ≤ (updateInterferenceLevel now (analyzeStructuredText s) st).interferenceLevel := by
  have hsig : (analyzeStructuredText s).concerningSignals = 5 := by
    simp [analyzeStructuredText, hinc, hfreq, herr, hconf, hrep, hdelay, hctx,
      hprol, hmathinc]
  refine ⟨hsig, ?_, ?_⟩
  · simp [analyzeStructuredText, hinc, hfreq, herr, hconf, hrep, hdelay, hctx,
      hprol, hmathinc]
  · intro st now
    simp only [updateInterferenceLevel, hsig]
    norm_num

/-- Concrete batch text for the C2 witness. -/
def c2Text : Str :=
  "<incorrect_answer_signal>abc</incorrect_answer_signal>\ntype=\"frequent_errors\"".data

/-- Witness for C2 at a concrete batch text and the fresh engine state. -/
theorem c2_scenarioB_witness :
    (analyzeStructuredText c2Text).concerningSignals = 5 ∧
    (analyzeStructuredText c2Text).urgency = "medium".data ∧
    2 ≤ (updateInterferenceLevel 0 (analyzeStructuredText c2Text)
          initialNudgeState).interferenceLevel := by
  obtain ⟨h1, h2, h3⟩ := c2_scenarioB c2Text (by decide) (by decide) (by decide)
    (by decide) (by decide) (by decide) (by decide) (by decide) (by decide)
  exact ⟨h1, h2, h3 initialNudgeState 0⟩

/-- Claim C6: for every batch text containing "the answer is 15/36" together
with dice/probability content and none of the scoring-table patterns,
`analyzeStructuredText` reports success indicators with zero concerning
signals; `updateInterferenceLevel` then decreases the level by one with a
floor of 0, and the cooldown used by `shouldNudge` is the flat 5 seconds. -/
theorem c6_scenarioC (s : Str)
    (hphrase : containsSub "the answer is 15/36".data s = true)
    (_hdice : containsSub "dice".data (lowerStr s) = true ∨
      containsSub "roll".data (lowerStr s) = true)
    (herr : containsSub "<error_signal>".data s = false)
    (hconf : containsSub "<confusion_signal>".data s = false)
    (hrep : containsSub "<repetitive>".data s = false)
    (hdelay : (numTagValues "<delay time=\"".data s).any (fun n => 30 < n) = false)
    (hctx : containsSub "type=\"context_switching\"".data s = false)
    (hfreq : containsSub "type=\"frequent_errors\"".data s = false)
    (hprol : containsSub "type=\"prolonged_focus\"".data s = false)
    (hincsig : containsSub "<incorrect_answer_signal>".data s = false)
    (hmathinc : (detectMathematicalContent s).hasIncorrectAnswer = false) :
    (analyzeStructuredText s).patterns.hasSuccessIndicators = true ∧
    (analyzeStructuredText s).concerningSignals = 0 ∧
    (∀ (st : NudgeState) (now : Int),
      (updateInterferenceLevel now (analyzeStructuredText s) st).interferenceLevel =
        max 0 (st.interferenceLevel - 1)) ∧
    (∀ st : NudgeState, effectiveCooldown st (analyzeStructuredText s) = 5000) := by
  have hlower : containsSub "the answer is 15/36".data (lowerStr s) = true := by
    have h := containsSub_lower hphrase
    rwa [show lowerStr "the answer is 15/36".data = "the answer is 15/36".data from
      by decide] at h
  have hlowinf : "the answer is 15/36".data <:+: lowerStr s := containsSub_iff.mp hlower
  have hkw : containsSub "answer is".data (lowerStr s) = true :=
    containsSub_of_infix
      (containsSub_iff.mp
        (by decide : containsSub "answer is".data "the answer is 15/36".data = true))
      hlower
  have hmd : (detectMathematicalContent s).hasMathContent = true :=
    hasMathContent_of_keyword (by decide) hkw
  have hlm : lineMatch2 "answer".data "15".data (lowerStr s) = true :=
    lineMatch2_of_infix (by decide)
      (by decide : seqAfter2 "answer".data "15".data "the answer is 15/36".data = true)
      hlowinf
  have hmc : mathCompletionHit (lowerStr s) = true := by
    simp [mathCompletionHit, hlm]
  have hsucc : (analyzeStructuredText s).patterns.hasSuccessIndicators = true := by
    simp [analyzeStructuredText, hmd, hmc]
  have hsig0 : (analyzeStructuredText s).concerningSignals = 0 := by
    simp [analyzeStructuredText, herr, hconf, hrep, hdelay, hctx, hfreq, hprol,
      hincsig, hmathinc]
  refine ⟨hsucc, hsig0, ?_, ?_⟩
  · intro st now
    simp [updateInterferenceLevel, hsucc, hsig0]
  · intro st
    simp [effectiveCooldown, hsucc, hsig0]

/-- The applicable cooldown as the claim words it: the level-indexed table
(10/15/20/30 s), replaced by a flat 5 s on success without problems, and
capped at 8 s for mathematical content with problems. -/
def claimCooldown (st : NudgeState) (a : Analysis) : Int :=
  let table : Int :=
    if st.interferenceLevel = 0 then 10000
    else if st.interferenceLevel = 1 then 15000
    else if st.interferenceLevel = 2 then 20000
    else 30000
  if a.patterns.hasSuccessIndicators = true ∧ a.concerningSignals = 0 then 5000
  else if a.patterns.hasMathematicalContent = true ∧ 0 < a.concerningSignals then
    min table 8000
  else table

theorem claimCooldown_eq (st : NudgeState) (a : Analysis)
    (h0 : 0 ≤ st.interferenceLevel) (h3 : st.interferenceLevel ≤ 3) :
    effectiveCooldown st a = claimCooldown st a := by
  have hl : st.interferenceLevel = 0 ∨ st.interferenceLevel = 1 ∨
      st.interferenceLevel = 2 ∨ st.interferenceLevel = 3 := by omega
  rcases Nat.eq_zero_or_pos a.concerningSignals with hz | hp
  · cases hs : a.patterns.hasSuccessIndicators <;>
      rcases hl with h | h | h | h <;>
        simp [effectiveCooldown, claimCooldown, nudgeCooldowns, hz, hs, h]
  · have hnz : a.concerningSignals ≠ 0 := Nat.pos_iff_ne_zero.mp hp
    cases hs : a.patterns.hasSuccessIndicators <;>
      cases hm : a.patterns.hasMathematicalContent <;>
        rcases hl with h | h | h | h <;>
          simp [effectiveCooldown, claimCooldown, nudgeCooldowns, hs, hm, h, hp, hnz]

/-- Claim C8: for every analysis and every engine state whose level is in the
table's range, `shouldNudge` returns `false` whenever the elapsed time since
`lastNudgeTime` does not exceed the applicable cooldown (level-indexed table,
flat 5 s on success without problems, capped at 8 s for mathematical content
with problems). -/
theorem c8_cooldownRespect (now : Int) (st : NudgeState) (a : Analysis)
    (h0 : 0 ≤ st.interferenceLevel) (h3 : st.interferenceLevel ≤ 3)
    (helapsed : now - st.lastNudgeTime ≤ claimCooldown st a) :
    shouldNudge now st a = false := by
  have heq := claimCooldown_eq st a h0 h3
  have hlt : decide (effectiveCooldown st a < now - st.lastNudgeTime) = false := by
    rw [heq]
    simp only [decide_eq_false_iff_not, not_lt]
    exact helapsed
  simp [shouldNudge, hlt]

/-- Witness for C8: fresh state, 5 s elapsed against the 10 s level-0 table
cooldown. -/
theorem c8_cooldownRespect_witness :
    shouldNudge 5000 initialNudgeState (analyzeStructuredText []) = false :=
  c8_cooldownRespect 5000 initialNudgeState (analyzeStructuredText [])
    (by decide) (by decide) (by decide)

/-- Concrete batch text for the C6 witness. -/
def c6Text : Str := "the answer is 15/36 dice".data

/-- Witness for C6 at a concrete batch text and a concrete engine state. -/
theorem c6_scenarioC_witness :
    (analyzeStructuredText c6Text).patterns.hasSuccessIndicators = true ∧
    (analyzeStructuredText c6Text).concerningSignals = 0 ∧
    (updateInterferenceLevel 7 (analyzeStructuredText c6Text)
      { nudgeHistory := [], interferenceLevel := 2, lastNudgeTime := 0 }).interferenceLevel =
      max 0 (2 - 1) ∧
    effectiveCooldown { nudgeHistory := [], interferenceLevel := 2, lastNudgeTime := 0 }
      (analyzeStructuredText c6Text) = 5000 := by
  obtain ⟨h1, h2, h3, h4⟩ := c6_scenarioC c6Text (by decide) (Or.inl (by decide))
    (by decide) (by decide) (by decide) (by decide) (by decide) (by decide)
    (by decide) (by decide) (by decide)
  exact ⟨h1, h2, h3 _ 7, h4 _⟩

/-! ## Characterisation lemmas for the dispatcher -/

theorem pushCapped_eq (n : Nudge) (h : List Nudge) :
    pushCapped n h = takeLast 20 (h ++ [n]) := by
  simp only [pushCapped, takeLast]
  split
  · rfl
  · next hle =>
    have hlen : (h ++ [n]).length = h.length + 1 := by simp
    have hz : (h ++ [n]).length - 20 = 0 := by omega
    rw [hz, List.drop_zero]

theorem setLast_pushCapped (n n' : Nudge) (h : List Nudge) :
    setLast (pushCapped n h) n' = pushCapped n' h := by
  rw [pushCapped_eq, pushCapped_eq]
  unfold setLast takeLast
  have hd : (h ++ [n]).length - 20 ≤ h.length := by
    simp only [List.length_append, List.length_singleton]
    omega
  have hd' : (h ++ [n']).length = (h ++ [n]).length := by simp
  rw [hd', List.drop_append_of_le_length hd, List.drop_append_of_le_length hd,
    List.dropLast_concat]

theorem generateNudge_spec (now : Int) (b : Batch) (a : Analysis)
    (api : Except Unit Str) (st : NudgeState) :
    generateNudge now b a api st = (st, none) ∨
    ∃ n, generateNudge now b a api st =
        ({ st with nudgeHistory := pushCapped n st.nudgeHistory
                   lastNudgeTime := now }, some n) ∧
      n.timestamp = now ∧ n.level = st.interferenceLevel := by
  unfold generateNudge
  cases api with
  | error e => exact Or.inl (by simp [callPrisma, Except.map])
  | ok raw =>
    simp only [callPrisma, Except.map]
    split
    · exact Or.inl rfl
    · exact Or.inr ⟨_, rfl, rfl, rfl⟩

theorem generateForcedNudge_spec (now : Int) (b : Batch) (a : Analysis)
    (api : Except Unit Str) (st : NudgeState) :
    generateForcedNudge now b a api st = (st, none) ∨
    ∃ n, generateForcedNudge now b a api st =
        ({ st with nudgeHistory := pushCapped n st.nudgeHistory
                   lastNudgeTime := now }, some n) ∧
      n.timestamp = now ∧ n.level = st.interferenceLevel ∧ n.forced = true := by
  unfold generateForcedNudge
  cases api with
  | error e => exact Or.inl (by simp [callPrisma, Except.map])
  | ok raw =>
    simp only [callPrisma, Except.map]
    exact Or.inr ⟨_, rfl, rfl, rfl, rfl⟩

theorem updateInterferenceLevel_frame (now : Int) (a : Analysis) (st : NudgeState) :
    (updateInterferenceLevel now a st).nudgeHistory = st.nudgeHistory ∧
    (updateInterferenceLevel now a st).lastNudgeTime = st.lastNudgeTime := by
  unfold updateInterferenceLevel
  split <;> exact ⟨rfl, rfl⟩

theorem forceAnalyzeAndNudge_spec (now : Int) (b : Batch) (api : Except Unit Str)
    (st : NudgeState) :
    forceAnalyzeAndNudge now b api st =
      ({ st with interferenceLevel :=
          (if st.interferenceLevel = 0 then 1 else st.interferenceLevel) }, none) ∨
    ∃ n, forceAnalyzeAndNudge now b api st =
        ({ st with
            interferenceLevel :=
              (if st.interferenceLevel = 0 then 1 else st.interferenceLevel),
            nudgeHistory := pushCapped n st.nudgeHistory }, some n) ∧
      n.timestamp = now ∧ n.manualTrigger = true := by
  obtain ⟨hist, lvl, last⟩ := st
  unfold forceAnalyzeAndNudge
  rcases generateForcedNudge_spec now b (analyzeStructuredText b.structuredText) api
      { nudgeHistory := hist,
        interferenceLevel := if lvl = 0 then 1 else lvl,
        lastNudgeTime := 0 } with hg | ⟨n, hg, hts, _, _⟩
  · left
    by_cases h0 : lvl = 0 <;> simp [h0] at hg ⊢ <;> simp [hg]
  · right
    refine ⟨{ n with manualTrigger := true }, ?_, by simp [hts], rfl⟩
    by_cases h0 : lvl = 0 <;>
      simp [h0] at hg ⊢ <;>
        simp [hg, setLast_pushCapped]

theorem updateInterferenceLevel_bounds (now : Int) (a : Analysis) (st : NudgeState)
    (h0 : 0 ≤ st.interferenceLevel) (h3 : st.interferenceLevel ≤ 3) :
    0 ≤ (updateInterferenceLevel now a st).interferenceLevel ∧
    (updateInterferenceLevel now a st).interferenceLevel ≤ 3 := by
  unfold updateInterferenceLevel
  split <;>
    · simp only [max_def]
      constructor <;> (split_ifs <;> omega)

theorem stepOp_bounds (st : NudgeState) (op : NOp)
    (h0 : 0 ≤ st.interferenceLevel) (h3 : st.interferenceLevel ≤ 3) :
    0 ≤ ((stepOp st op).1).interferenceLevel ∧
    ((stepOp st op).1).interferenceLevel ≤ 3 := by
  cases op with
  | auto now b api =>
    have hu := updateInterferenceLevel_bounds now
      (analyzeStructuredText b.structuredText) st h0 h3
    simp only [stepOp, analyzeAndNudge]
    split
    · rcases generateNudge_spec now b (analyzeStructuredText b.structuredText) api
        (updateInterferenceLevel now (analyzeStructuredText b.structuredText) st) with
        hg | ⟨n, hg, _, _⟩
      · rw [hg]; exact hu
      · rw [hg]; exact hu
    · exact hu
  | manual now b api =>
    rcases forceAnalyzeAndNudge_spec now b api st with hf | ⟨n, hf, _, _⟩ <;>
      · simp only [stepOp]
        rw [hf]
        dsimp only
        constructor <;> (split_ifs <;> omega)

/-- Claim C7: for every sequence of automatic analyses and manual triggers
applied to a freshly constructed nudge system, `interferenceLevel` stays an
integer in {0, 1, 2, 3} after every step (and hence before every step). -/
theorem c7_levelBounds (ops : List NOp) :
    0 ≤ (runOps initialNudgeState ops).interferenceLevel ∧
    (runOps initialNudgeState ops).interferenceLevel ≤ 3 := by
  suffices h : ∀ st : NudgeState, 0 ≤ st.interferenceLevel →
      st.interferenceLevel ≤ 3 →
      0 ≤ (runOps st ops).interferenceLevel ∧ (runOps st ops).interferenceLevel ≤ 3 by
    exact h initialNudgeState (by decide) (by decide)
  induction ops with
  | nil => intro st h0 h3; exact ⟨h0, h3⟩
  | cons op ops ih =>
    intro st h0 h3
    obtain ⟨g0, g3⟩ := stepOp_bounds st op h0 h3
    simp only [runOps]
    exact ih _ g0 g3

/-- Is the operation a manual/forced trigger? -/
def NOp.isManual : NOp → Bool
  | .auto .. => false
  | .manual .. => true

/-- The operation's `Date.now()`. -/
def NOp.time : NOp → Int
  | .auto n _ _ => n
  | .manual n _ _ => n

/-- The analysis computed by the operation. -/
def NOp.analysis : NOp → Analysis
  | .auto _ b _ => analyzeStructuredText b.structuredText
  | .manual _ b _ => analyzeStructuredText b.structuredText

theorem analyzeAndNudge_level (now : Int) (b : Batch) (api : Except Unit Str)
    (st : NudgeState) :
    ((analyzeAndNudge now b api st).1).interferenceLevel =
      (updateInterferenceLevel now (analyzeStructuredText b.structuredText)
        st).interferenceLevel := by
  simp only [analyzeAndNudge]
  split
  · rcases generateNudge_spec now b (analyzeStructuredText b.structuredText) api
      (updateInterferenceLevel now (analyzeStructuredText b.structuredText) st) with
      hg | ⟨n, hg, _, _⟩ <;> rw [hg]
  · rfl

theorem updateInterferenceLevel_change (now : Int) (a : Analysis) (st : NudgeState)
    (h0 : 0 ≤ st.interferenceLevel) :
    (st.interferenceLevel < (updateInterferenceLevel now a st).interferenceLevel →
      2 ≤ a.concerningSignals) ∧
    ((updateInterferenceLevel now a st).interferenceLevel < st.interferenceLevel →
      (a.patterns.hasSuccessIndicators = true ∧ a.concerningSignals = 0) ∨
      (300000 < now - st.lastNudgeTime ∧ a.concerningSignals < 2)) := by
  unfold updateInterferenceLevel
  split
  · next hsucc =>
    rw [Bool.and_eq_true, beq_iff_eq] at hsucc
    constructor
    · intro hlt
      exfalso
      rw [max_def] at hlt
      dsimp only at hlt
      split_ifs at hlt <;> omega
    · intro _
      exact Or.inl hsucc
  · dsimp only
    constructor
    · intro hlt
      by_contra hs2
      push_neg at hs2
      have e1 : ¬ 6 ≤ a.concerningSignals := by omega
      have e2 : ¬ 4 ≤ a.concerningSignals := by omega
      have e3 : ¬ 2 ≤ a.concerningSignals := by omega
      rw [if_neg e1, if_neg e2, if_neg e3] at hlt
      rw [max_def] at hlt
      split_ifs at hlt <;> omega
    · intro hlt
      right
      by_contra hc
      rw [not_and_or] at hc
      have hcond : (decide (300000 < now - st.lastNudgeTime) &&
          decide (a.concerningSignals < 2)) = false := by
        rcases hc with hc | hc <;> simp [hc]
      rw [hcond] at hlt
      simp only [Bool.false_eq_true, if_false, max_def] at hlt
      split_ifs at hlt <;> omega

/-- Counterexample to C4 as stated: a manual trigger from the fresh
state raises `interferenceLevel` from 0 to 1 although its analysis has 0
concerning signals, i.e. no escalation threshold (2, 4, 6) is reached and
neither decrease condition holds. -/
theorem c4_counterexample :
    (analyzeStructuredText ([] : Str)).concerningSignals = 0 ∧
    initialNudgeState.interferenceLevel = 0 ∧
    ((stepOp initialNudgeState
      (NOp.manual 1000
        { batchId := "b0".data, timestamp := 0, structuredText := [],
          rawEntryCount := 0, timespan := 0 }
        (Except.ok "look at step two again".data))).1).interferenceLevel = 1 := by
  decide

/-- Claim C4 (amended): across automatic updates and manual triggers,
`interferenceLevel` increases only during an automatic update whose
`concerningSignals` reaches the escalation threshold 2 (hence one of 2, 4, 6)
— or when a manual trigger forces a level of 0 up to 1 — and decreases only
during an automatic update with success indicators and zero concerning
signals, or with more than 5 minutes since the last nudge and fewer than 2
concerning signals. -/
theorem c4_levelChangeCauses (st : NudgeState) (op : NOp)
    (h0 : 0 ≤ st.interferenceLevel) :
    (st.interferenceLevel < ((stepOp st op).1).interferenceLevel →
      (op.isManual = false ∧ 2 ≤ op.analysis.concerningSignals) ∨
      (op.isManual = true ∧ st.interferenceLevel = 0 ∧
        ((stepOp st op).1).interferenceLevel = 1)) ∧
    (((stepOp st op).1).interferenceLevel < st.interferenceLevel →
      op.isManual = false ∧
      ((op.analysis.patterns.hasSuccessIndicators = true ∧
          op.analysis.concerningSignals = 0) ∨
        (300000 < op.time - st.lastNudgeTime ∧
          op.analysis.concerningSignals < 2))) := by
  cases op with
  | auto now b api =>
    have hlv := analyzeAndNudge_level now b api st
    have hch := updateInterferenceLevel_change now
      (analyzeStructuredText b.structuredText) st h0
    constructor
    · intro hlt
      rw [stepOp, hlv] at hlt
      exact Or.inl ⟨rfl, hch.1 hlt⟩
    · intro hlt
      rw [stepOp, hlv] at hlt
      exact ⟨rfl, hch.2 hlt⟩
  | manual now b api =>
    have hset : ((stepOp st (NOp.manual now b api)).1).interferenceLevel =
        (if st.interferenceLevel = 0 then 1 else st.interferenceLevel) := by
      rcases forceAnalyzeAndNudge_spec now b api st with hf | ⟨n, hf, _, _⟩ <;>
        · simp only [stepOp]
          rw [hf]
    constructor
    · intro hlt
      rw [hset] at hlt ⊢
      right
      refine ⟨rfl, ?_, ?_⟩ <;> (split_ifs at hlt ⊢ <;> omega)
    · intro hlt
      rw [hset] at hlt
      exfalso
      split_ifs at hlt <;> omega

/-- The concrete manual operation used by the C4 witness. -/
def c4WitnessOp : NOp :=
  NOp.manual 5
    { batchId := "w".data, timestamp := 0, structuredText := [],
      rawEntryCount := 0, timespan := 0 }
    (Except.ok "try again".data)

/-- Witness for C4 (amended) at a concrete state and operation: the level
does increase (0 to 1), and the theorem attributes it to the manual bump. -/
theorem c4_levelChangeCauses_witness :
    (c4WitnessOp.isManual = false ∧
      2 ≤ c4WitnessOp.analysis.concerningSignals) ∨
    (c4WitnessOp.isManual = true ∧ initialNudgeState.interferenceLevel = 0 ∧
      ((stepOp initialNudgeState c4WitnessOp).1).interferenceLevel = 1) :=
  (c4_levelChangeCauses initialNudgeState c4WitnessOp (by decide)).1 (by decide)

/-- Counterexample to C5 as stated: a manual trigger emits a nudge with
emission time 1000, yet once `forceAnalyzeAndNudge` completes,
`lastNudgeTime` again holds its previous value 42 — the forced path restores
it after generating the nudge. -/
theorem c5_counterexample :
    ((stepOp { nudgeHistory := [], interferenceLevel := 0, lastNudgeTime := 42 }
        (NOp.manual 1000
          { batchId := "b".data, timestamp := 0, structuredText := [],
            rawEntryCount := 0, timespan := 0 }
          (Except.ok "check the loop bound".data))).2.map
      (fun n => n.timestamp)) = some 1000 ∧
    ((stepOp { nudgeHistory := [], interferenceLevel := 0, lastNudgeTime := 42 }
        (NOp.manual 1000
          { batchId := "b".data, timestamp := 0, structuredText := [],
            rawEntryCount := 0, timespan := 0 }
          (Except.ok "check the loop bound".data))).1).lastNudgeTime = 42 := by
  decide

/-- Claim C5 (amended): every non-suppressed nudge — automatic or forced — is
appended to `nudgeHistory`, which keeps the 20 most recent entries dropping
the oldest; an automatic nudge's emission time becomes `lastNudgeTime`, while
a manual trigger restores `lastNudgeTime` to its prior value. -/
theorem c5_nudgeRecording (st : NudgeState) (op : NOp) (n : Nudge)
    (h : (stepOp st op).2 = some n) :
    ((stepOp st op).1).nudgeHistory = takeLast 20 (st.nudgeHistory ++ [n]) ∧
    n.timestamp = op.time ∧
    (op.isManual = false → ((stepOp st op).1).lastNudgeTime = n.timestamp) ∧
    (op.isManual = true → ((stepOp st op).1).lastNudgeTime = st.lastNudgeTime) := by
  cases op with
  | auto now b api =>
    have hstep : stepOp st (NOp.auto now b api) =
        if shouldNudge now
            (updateInterferenceLevel now (analyzeStructuredText b.structuredText) st)
            (analyzeStructuredText b.structuredText) then
          generateNudge now b (analyzeStructuredText b.structuredText) api
            (updateInterferenceLevel now (analyzeStructuredText b.structuredText) st)
        else
          (updateInterferenceLevel now (analyzeStructuredText b.structuredText) st,
            none) := rfl
    rw [hstep] at h ⊢
    split at h
    · rcases generateNudge_spec now b (analyzeStructuredText b.structuredText) api
        (updateInterferenceLevel now (analyzeStructuredText b.structuredText) st) with
        hg | ⟨m, hg, hts, _⟩
      · rw [hg] at h
        exact absurd h (by simp)
      · rw [hg] at h
        obtain rfl : m = n := Option.some.inj h
        rw [if_pos (by assumption), hg]
        refine ⟨?_, hts, fun _ => hts.symm, fun hman => by simp [NOp.isManual] at hman⟩
        have hfr := updateInterferenceLevel_frame now
          (analyzeStructuredText b.structuredText) st
        simp only [pushCapped_eq]
        rw [hfr.1]
    · simp at h
  | manual now b api =>
    have hstep : stepOp st (NOp.manual now b api) = forceAnalyzeAndNudge now b api st :=
      rfl
    rw [hstep] at h ⊢
    rcases forceAnalyzeAndNudge_spec now b api st with hf | ⟨m, hf, hts, _⟩
    · rw [hf] at h
      exact absurd h (by simp)
    · rw [hf] at h
      obtain rfl : m = n := Option.some.inj h
      rw [hf]
      exact ⟨pushCapped_eq _ st.nudgeHistory, hts,
        fun hauto => by simp [NOp.isManual] at hauto, fun _ => rfl⟩

/-- Concrete state, operation and nudge for the C5 witness. -/
def c5State : NudgeState :=
  { nudgeHistory := [], interferenceLevel := 0, lastNudgeTime := 42 }

def c5Op : NOp :=
  NOp.manual 1000
    { batchId := "b".data, timestamp := 0, structuredText := [],
      rawEntryCount := 0, timespan := 0 }
    (Except.ok "check the loop bound".data)

def c5Nudge : Nudge :=
  { id := "forced_nudge_".data ++ natToStr 1000, timestamp := 1000,
    level := 1, text := "check the loop bound".data,
    analysis := analyzeStructuredText [], batchId := "b".data,
    manualTrigger := true, forced := true }

/-- Witness for C5 (amended) at a concrete manual trigger. -/
theorem c5_nudgeRecording_witness :
    ((stepOp c5State c5Op).1).nudgeHistory =
      takeLast 20 (c5State.nudgeHistory ++ [c5Nudge]) ∧
    c5Nudge.timestamp = c5Op.time ∧
    (c5Op.isManual = false →
      ((stepOp c5State c5Op).1).lastNudgeTime = c5Nudge.timestamp) ∧
    (c5Op.isManual = true →
      ((stepOp c5State c5Op).1).lastNudgeTime = c5State.lastNudgeTime) :=
  c5_nudgeRecording c5State c5Op c5Nudge (by decide)

theorem callPrismaPost_silent (level : Int) (raw : Str)
    (h : upperStr (trimStr raw) = "SILENT".data) :
    callPrismaPost level raw = none := by
  simp [callPrismaPost, h]

/-- Counterexample to C1 as stated: with concerning signals present
(a batch text carrying one `<error_signal>` tag, score 1), a reply of
exactly "SILENT" does not suppress the nudge — the pipeline substitutes the
generic fallback text, appends a nudge to the history and advances
`lastNudgeTime`. -/
theorem c1_counterexample :
    0 < (analyzeStructuredText
      "<error_signal>stuck</error_signal>".data).concerningSignals ∧
    ((analyzeAndNudge 100000
        { batchId := "b1".data, timestamp := 0,
          structuredText := "<error_signal>stuck</error_signal>".data,
          rawEntryCount := 1, timespan := 0 }
        (Except.ok "SILENT".data) initialNudgeState).2.map
      (fun n => n.text)) = some emptyReplyFallback ∧
    ((analyzeAndNudge 100000
        { batchId := "b1".data, timestamp := 0,
          structuredText := "<error_signal>stuck</error_signal>".data,
          rawEntryCount := 1, timespan := 0 }
        (Except.ok "SILENT".data) initialNudgeState).1).nudgeHistory.length = 1 ∧
    ((analyzeAndNudge 100000
        { batchId := "b1".data, timestamp := 0,
          structuredText := "<error_signal>stuck</error_signal>".data,
          rawEntryCount := 1, timespan := 0 }
        (Except.ok "SILENT".data) initialNudgeState).1).lastNudgeTime = 100000 := by
  decide

/-- Claim C1 (amended): if the model reply trims to "SILENT" in any letter
case on a non-forced run, then whenever the analysis has zero concerning
signals the pipeline returns no nudge and leaves `nudgeHistory` and
`lastNudgeTime` unchanged; with concerning signals present and the nudge
gate firing, the pipeline instead emits a nudge carrying the fixed generic
fallback text and advances `lastNudgeTime`. -/
theorem c1_silentSuppression (st : NudgeState) (b : Batch) (now : Int) (raw : Str)
    (hsil : upperStr (trimStr raw) = "SILENT".data) :
    ((analyzeStructuredText b.structuredText).concerningSignals = 0 →
      (analyzeAndNudge now b (Except.ok raw) st).2 = none ∧
      ((analyzeAndNudge now b (Except.ok raw) st).1).nudgeHistory =
        st.nudgeHistory ∧
      ((analyzeAndNudge now b (Except.ok raw) st).1).lastNudgeTime =
        st.lastNudgeTime) ∧
    (0 < (analyzeStructuredText b.structuredText).concerningSignals →
      shouldNudge now
        (updateInterferenceLevel now (analyzeStructuredText b.structuredText) st)
        (analyzeStructuredText b.structuredText) = true →
      ∃ n, (analyzeAndNudge now b (Except.ok raw) st).2 = some n ∧
        n.text = emptyReplyFallback ∧
        ((analyzeAndNudge now b (Except.ok raw) st).1).lastNudgeTime = now) := by
  have hfr := updateInterferenceLevel_frame now
    (analyzeStructuredText b.structuredText) st
  constructor
  · intro hsig0
    have hg : generateNudge now b (analyzeStructuredText b.structuredText)
        (Except.ok raw)
        (updateInterferenceLevel now (analyzeStructuredText b.structuredText) st) =
        (updateInterferenceLevel now (analyzeStructuredText b.structuredText) st,
          none) := by
      simp [generateNudge, callPrisma, Except.map,
        callPrismaPost_silent _ raw hsil, trimStr, hsig0]
    simp only [analyzeAndNudge]
    split
    · rw [hg]
      exact ⟨rfl, hfr.1, hfr.2⟩
    · exact ⟨rfl, hfr.1, hfr.2⟩
  · intro hpos hgate
    simp only [analyzeAndNudge]
    rw [if_pos hgate]
    simp only [generateNudge, callPrisma, Except.map,
      callPrismaPost_silent _ raw hsil, trimStr, List.dropWhile_nil,
      List.reverse_nil, Option.getD_none, List.isEmpty_nil, if_true]
    rw [if_pos hpos]
    exact ⟨_, rfl, rfl, rfl⟩

/-- Concrete batch for the C1 witness (empty structured text, zero
concerning signals). -/
def c1WBatch : Batch :=
  { batchId := "w1".data, timestamp := 0, structuredText := [],
    rawEntryCount := 0, timespan := 0 }

/-- Witness for C1 (amended) with the reply " silent " (trims and uppercases
to "SILENT"). -/
theorem c1_silentSuppression_witness :
    ((analyzeStructuredText c1WBatch.structuredText).concerningSignals = 0 →
      (analyzeAndNudge 7 c1WBatch (Except.ok " silent ".data)
        initialNudgeState).2 = none ∧
      ((analyzeAndNudge 7 c1WBatch (Except.ok " silent ".data)
        initialNudgeState).1).nudgeHistory = initialNudgeState.nudgeHistory ∧
      ((analyzeAndNudge 7 c1WBatch (Except.ok " silent ".data)
        initialNudgeState).1).lastNudgeTime = initialNudgeState.lastNudgeTime) ∧
    (0 < (analyzeStructuredText c1WBatch.structuredText).concerningSignals →
      shouldNudge 7
        (updateInterferenceLevel 7 (analyzeStructuredText c1WBatch.structuredText)
          initialNudgeState)
        (analyzeStructuredText c1WBatch.structuredText) = true →
      ∃ n, (analyzeAndNudge 7 c1WBatch (Except.ok " silent ".data)
          initialNudgeState).2 = some n ∧
        n.text = emptyReplyFallback ∧
        ((analyzeAndNudge 7 c1WBatch (Except.ok " silent ".data)
          initialNudgeState).1).lastNudgeTime = 7) :=
  c1_silentSuppression initialNudgeState c1WBatch 7 " silent ".data (by decide)

/-- The `catch` branch of `TandemProcessor.sanitizeUrl`
(`url.substring(0, 50)`), used to instantiate the `sanitize` collaborator at
concrete inputs. -/
def sanitizeCatch (s : Str) : Str := s.take 50

theorem eq_mem_createStructuredBatch (san : Str → Str) (now : Int)
    (entries : List REntry) : '=' ∈ createStructuredBatch san now entries := by
  have h1 : '=' ∈ "<batch timestamp=\"".data := by decide
  unfold createStructuredBatch
  simp [List.mem_append, h1]

theorem hasMathContent_of_eq_mem {s : Str} (h : '=' ∈ s) :
    (detectMathematicalContent s).hasMathContent = true := by
  have hsym : s.any isMathSymbolCh = true :=
    List.any_eq_true.mpr ⟨'=', h, by decide⟩
  simp [detectMathematicalContent, hsym]

theorem completion_of_eq_mem {s : Str} (h : '=' ∈ s) :
    (analyzeStructuredText s).patterns.hasCompletionSignals = true := by
  have hl : '=' ∈ lowerStr s := List.mem_map.mpr ⟨'=', h, by decide⟩
  have hcs : containsSub "=".data (lowerStr s) = true := containsSub_of_mem hl
  have hany : completionKeywords.any (fun k => containsSub k (lowerStr s)) = true :=
    List.any_eq_true.mpr ⟨"=".data, by decide, hcs⟩
  simp [analyzeStructuredText, hany]

/-- Claim C9: every composer-produced batch text contains "=" (already in the
`<batch timestamp="…">` header), so `analyzeStructuredText` always reports
mathematical content ("=" is a math symbol) and completion signals ("=" is a
completion keyword); consequently, whenever such a batch scores any
concerning signal, the effective cooldown of `shouldNudge` is capped at 8
seconds. -/
theorem c9_composerForcesMath (san : Str → Str) (now : Int)
    (entries : List REntry) (_hne : entries ≠ []) :
    containsSub "=".data (createStructuredBatch san now entries) = true ∧
    (analyzeStructuredText
      (createStructuredBatch san now entries)).patterns.hasMathematicalContent =
      true ∧
    (analyzeStructuredText
      (createStructuredBatch san now entries)).patterns.hasCompletionSignals =
      true ∧
    (0 < (analyzeStructuredText
        (createStructuredBatch san now entries)).concerningSignals →
      ∀ st : NudgeState,
        effectiveCooldown st
          (analyzeStructuredText (createStructuredBatch san now entries)) ≤ 8000) := by
  have hmem : '=' ∈ createStructuredBatch san now entries :=
    eq_mem_createStructuredBatch san now entries
  have hmd := hasMathContent_of_eq_mem hmem
  have hm : (analyzeStructuredText
      (createStructuredBatch san now entries)).patterns.hasMathematicalContent =
      true := by
    simp [analyzeStructuredText, hmd]
  refine ⟨containsSub_of_mem hmem, hm, completion_of_eq_mem hmem, ?_⟩
  intro hpos st
  have hp : decide (0 < (analyzeStructuredText
      (createStructuredBatch san now entries)).concerningSignals) = true :=
    decide_eq_true hpos
  simp only [effectiveCooldown, hm, hp, Bool.and_self, if_true]
  exact min_le_right _ _

/-- Concrete entry for the C9 witness. -/
def c9Entry : REntry :=
  { timestamp := "01".data, diff := "x".data, fullText := "x".data,
    url := "u".data, capturedAt := 0, receivedAt := 0 }

/-- Witness for C9 at a singleton entry set. -/
theorem c9_composerForcesMath_witness :
    containsSub "=".data (createStructuredBatch sanitizeCatch 123 [c9Entry]) = true ∧
    (analyzeStructuredText
      (createStructuredBatch sanitizeCatch 123 [c9Entry])).patterns.hasMathematicalContent =
      true ∧
    (analyzeStructuredText
      (createStructuredBatch sanitizeCatch 123 [c9Entry])).patterns.hasCompletionSignals =
      true ∧
    (0 < (analyzeStructuredText
        (createStructuredBatch sanitizeCatch 123 [c9Entry])).concerningSignals →
      ∀ st : NudgeState,
        effectiveCooldown st
          (analyzeStructuredText (createStructuredBatch sanitizeCatch 123 [c9Entry])) ≤
          8000) :=
  c9_composerForcesMath sanitizeCatch 123 [c9Entry] (by simp)

/-- Entries for the C3 counterexample trace. -/
def c3EntryA : CaptureEntry :=
  { timestamp := "01".data, diff := "alpha".data, fullText := "alpha".data,
    url := "u1".data, capturedAt := 1 }

def c3EntryB : CaptureEntry :=
  { timestamp := "02".data, diff := "beta".data, fullText := "beta".data,
    url := "u1".data, capturedAt := 130001 }

/-- The state after receiving entry A at t = 1 ms and entry B at
t = 130001 ms (the add at B evicts A from the 2-minute buffer). -/
def c3TraceState : TandemState :=
  runTandem sanitizeCatch initialTandemState
    [TEvent.add 1 c3EntryA, TEvent.add 130001 c3EntryB]

/-- Counterexample to C3 as stated: in the trace of `c3TraceState` no
seal has happened (`lastProcessTime = 0`), both entries were received after
the previous seal, and at the poll at t = 175001 ms inactivity is exactly
45 s — yet the sealed batch holds only the entry received at 130001: the
entry received at t = 1 was evicted by the 2-minute buffer and is missing. -/
theorem c3_counterexample :
    c3TraceState.lastProcessTime = 0 ∧
    45000 ≤ 175001 - c3TraceState.lastActivityTime ∧
    ((tickStep sanitizeCatch 175001 c3TraceState).2.map
      (fun p => p.2.map (fun e => e.receivedAt))) = some [130001] := by
  decide

/-- Claim C3 (amended): at any scheduler poll where inactivity has reached
45 s and some buffered entry was received after the previous seal, a batch is
sealed — regardless of the 15-second minimum-wait gate, on which nothing is
assumed — and it contains exactly the buffered entries received since the
previous seal (entries already evicted from the 2-minute buffer are gone). -/
theorem c3_sealCeiling (san : Str → Str) (now : Int) (st : TandemState)
    (hproc : st.isProcessing = false)
    (h45 : 45000 ≤ now - st.lastActivityTime)
    (hex : ∃ e ∈ st.rawCaptureData, st.lastProcessTime < e.receivedAt) :
    ∃ b, tickStep san now st =
      ({ st with
          structuredBatches := pushCappedBatch b st.structuredBatches,
          lastProcessTime := now,
          isProcessing := false },
        some (b, st.rawCaptureData.filter
          (fun e => st.lastProcessTime < e.receivedAt))) := by
  obtain ⟨e, hmem, hrecv⟩ := hex
  have hne : st.rawCaptureData.isEmpty = false := by
    cases hr : st.rawCaptureData with
    | nil => rw [hr] at hmem; cases hmem
    | cons x xs => simp
  have hshould : shouldProcessBatch now st = true := by
    unfold shouldProcessBatch
    rw [if_pos h45]
  have hbd : (st.rawCaptureData.filter
      (fun e => st.lastProcessTime < e.receivedAt)).isEmpty = false := by
    have : e ∈ st.rawCaptureData.filter
        (fun e => st.lastProcessTime < e.receivedAt) :=
      List.mem_filter.mpr ⟨hmem, by simpa using hrecv⟩
    cases hr : st.rawCaptureData.filter
        (fun e => st.lastProcessTime < e.receivedAt) with
    | nil => rw [hr] at this; cases this
    | cons x xs => simp
  unfold tickStep
  rw [hproc, hne, hshould]
  simp only [Bool.not_false, Bool.and_self, if_true]
  unfold processBatch
  dsimp only
  rw [hbd]
  simp only [Bool.false_eq_true, if_false]
  exact ⟨_, rfl⟩

/-- Concrete entry and state for the C3 witness. -/
def c3WEntry : REntry :=
  { timestamp := "01".data, diff := "x".data, fullText := "x".data,
    url := "u".data, capturedAt := 1000, receivedAt := 1000 }

def c3WState : TandemState :=
  { rawCaptureData := [c3WEntry], structuredBatches := [],
    lastProcessTime := 0, lastActivityTime := 1000, isProcessing := false }

/-- Witness for C3 (amended) at a concrete state with 45 s of inactivity. -/
theorem c3_sealCeiling_witness :
    ∃ b, tickStep sanitizeCatch 46000 c3WState =
      ({ c3WState with
          structuredBatches := pushCappedBatch b c3WState.structuredBatches,
          lastProcessTime := 46000,
          isProcessing := false },
        some (b, c3WState.rawCaptureData.filter
          (fun e => c3WState.lastProcessTime < e.receivedAt))) :=
  c3_sealCeiling sanitizeCatch 46000 c3WState (by decide) (by decide)
    ⟨c3WEntry, by decide, by decide⟩

theorem tickStep_batch_entries (san : Str → Str) (now' : Int) (st' : TandemState)
    (bp' : Batch × List REntry) (h : (tickStep san now' st').2 = some bp') :
    bp'.2 = st'.rawCaptureData.filter (fun e => st'.lastProcessTime < e.receivedAt) := by
  unfold tickStep at h
  split at h
  · unfold processBatch at h
    dsimp only at h
    split at h
    · simp at h
    · obtain rfl := Option.some.inj h
      rfl
  · simp at h

/-- Entries for the C10 counterexample trace. -/
def c10E : CaptureEntry :=
  { timestamp := "01".data, diff := "one".data, fullText := "one".data,
    url := "u1".data, capturedAt := 1000 }

def c10F : CaptureEntry :=
  { timestamp := "02".data, diff := "two".data, fullText := "two".data,
    url := "u1".data, capturedAt := 70000 }

/-- State after the auto seal at t = 50 s consumed the entry received at
t = 1 s. -/
def c10St2 : TandemState :=
  runTandem sanitizeCatch initialTandemState
    [TEvent.add 1000 c10E, TEvent.tick 50000]

/-- State after the forced batch at t = 60 s and a fresh entry at t = 70 s. -/
def c10St5 : TandemState :=
  runTandem sanitizeCatch (forceProcessBatch sanitizeCatch 60000 c10St2).1
    [TEvent.add 70000 c10F]

/-- Counterexample to C10 as stated: the forced batch at t = 60 s
contains the already-processed entry received at t = 1 s (its filter runs
against `lastProcessTime = 0`); that entry is still in the 2-minute buffer at
the next automatic seal (t = 90 s), yet that batch contains only the entry
received at t = 70 s. -/
theorem c10_counterexample :
    ((forceProcessBatch sanitizeCatch 60000 c10St2).2.map
      (fun p => p.2.map (fun e => e.receivedAt))) = some [1000] ∧
    ((forceProcessBatch sanitizeCatch 60000 c10St2).1).lastProcessTime = 50000 ∧
    (c10St5.rawCaptureData.map (fun e => e.receivedAt)) = [1000, 70000] ∧
    ((tickStep sanitizeCatch 90000 c10St5).2.map
      (fun p => p.2.map (fun e => e.receivedAt))) = some [70000] := by
  decide

/-- Claim C10 (amended): `forceProcessBatch` restores `lastProcessTime` to its
value from before the forced seal; consequently every entry of the forced
batch that was received after the last automatic seal and is still buffered
when the next automatic seal fires (with `lastProcessTime` still unchanged)
is included in that batch. -/
theorem c10_forcedBatchFrame (san : Str → Str) (now : Int) (st : TandemState) :
    ((forceProcessBatch san now st).1).lastProcessTime = st.lastProcessTime ∧
    (∀ (e : REntry) (bp : Batch × List REntry),
      (forceProcessBatch san now st).2 = some bp → e ∈ bp.2 →
      st.lastProcessTime < e.receivedAt →
      ∀ (st' : TandemState) (now' : Int) (bp' : Batch × List REntry),
        st'.lastProcessTime = st.lastProcessTime →
        e ∈ st'.rawCaptureData →
        (tickStep san now' st').2 = some bp' →
        e ∈ bp'.2) := by
  constructor
  · unfold forceProcessBatch
    split
    · rfl
    · rfl
  · intro e bp _ _ hrecv st' now' bp' hlpt hmem htick
    rw [tickStep_batch_entries san now' st' bp' htick]
    refine List.mem_filter.mpr ⟨hmem, ?_⟩
    rw [hlpt]
    simpa using hrecv

/-- Concrete state for the C10 witness: one buffered entry received after
the last automatic seal. -/
def c10WState : TandemState :=
  { rawCaptureData :=
      [{ timestamp := "01".data, diff := "x".data, fullText := "x".data,
         url := "u".data, capturedAt := 30, receivedAt := 30 }],
    structuredBatches := [], lastProcessTime := 10, lastActivityTime := 30,
    isProcessing := false }

/-- Witness for C10 (amended) at a concrete state. -/
theorem c10_forcedBatchFrame_witness :
    ((forceProcessBatch sanitizeCatch 100 c10WState).1).lastProcessTime =
      c10WState.lastProcessTime ∧
    (∀ (e : REntry) (bp : Batch × List REntry),
      (forceProcessBatch sanitizeCatch 100 c10WState).2 = some bp → e ∈ bp.2 →
      c10WState.lastProcessTime < e.receivedAt →
      ∀ (st' : TandemState) (now' : Int) (bp' : Batch × List REntry),
        st'.lastProcessTime = c10WState.lastProcessTime →
        e ∈ st'.rawCaptureData →
        (tickStep sanitizeCatch now' st').2 = some bp' →
        e ∈ bp'.2) :=
  c10_forcedBatchFrame sanitizeCatch 100 c10WState

end Prisma
